import Mathlib

/-
Formal model of the PCSoc verification bot.

The repository splits into the verification workflow engine (module iam.verify
together with the record shape of iam.db) and the mail helper (src/iam/mail.py).
The engine module is absent from this source tree; only its unit tests
(src/test_verify.py) and the mail helper are present.  The engine operations
below are therefore modelled from the specification, and each such definition
says so in its doc comment; the modelled behaviour agrees with every assertion
of the unit tests.  The mail helper definitions are translated directly from
src/iam/mail.py.

Each engine operation is rendered as a pure function from its inputs (the
looked-up member record, the wall clock, the injected configuration, the
outcome of the external email dispatcher, the output of the code oracle) to an
explicit effect record: the ordered list of partial store updates, the full
store writes, the outbound notifications to the member and to the admin
channel, the dispatcher calls, the invocations of the shared rate limited
email step, and the rank grants.
-/

namespace Iam

/-- Modelled from the spec: the workflow states of iam.verify.State (spec
section 3); the null state is rendered as Option.none at use sites. -/
inductive State where
  | AWAIT_NAME
  | AWAIT_UNSW
  | AWAIT_ZID
  | AWAIT_EMAIL
  | AWAIT_CODE
  | AWAIT_ID
  | AWAIT_APPROVAL
deriving DecidableEq

/-- Modelled from the spec: one member record of the MemberStore (iam.db,
spec section 3).  Timestamps are rendered as natural numbers and the opaque
id_message reference as a natural number. -/
structure MemberData where
  name : Option String := none
  zid : Option String := none
  email : Option String := none
  email_attempts : Nat := 0
  ver_state : Option State := none
  ver_time : Nat := 0
  email_ver : Bool := false
  id_ver : Bool := false
  id_message : Option Nat := none
deriving DecidableEq

/-- Modelled from the spec: iam.db.make_def_member_data, the default record
shape created on first contact; ver_time is the creation wall clock. -/
def make_def_member_data (now : Nat) : MemberData := { ver_time := now }

/-- Modelled from the spec: one partial update passed to the update operation
of the MemberStore; a some field is written, a none field is left alone. -/
structure MemberUpdate where
  name : Option (Option String) := none
  zid : Option (Option String) := none
  email : Option (Option String) := none
  email_attempts : Option Nat := none
  ver_state : Option (Option State) := none
  ver_time : Option Nat := none
  email_ver : Option Bool := none
  id_ver : Option Bool := none
  id_message : Option (Option Nat) := none
deriving DecidableEq

/-- Modelled from the spec: the merge semantics of the update operation of the
MemberStore (spec section 6): named fields are merged into the record. -/
def applyUpdate (r : MemberData) (u : MemberUpdate) : MemberData where
  name := u.name.getD r.name
  zid := u.zid.getD r.zid
  email := u.email.getD r.email
  email_attempts := u.email_attempts.getD r.email_attempts
  ver_state := u.ver_state.getD r.ver_state
  ver_time := u.ver_time.getD r.ver_time
  email_ver := u.email_ver.getD r.email_ver
  id_ver := u.id_ver.getD r.id_ver
  id_message := u.id_message.getD r.id_message

/-- Modelled from the spec: the notifications an operation can send to the
member, one tag per distinct message of the engine. -/
inductive MemberMsg where
  | promptName
  | errAlreadyVerifying
  | msgWelcomeBack
  | errNameTooLong
  | promptUnsw
  | errTypeYN
  | promptZid
  | promptEmail
  | errZidFormat
  | errEmailFormat
  | errTooManyEmails
  | errEmailFailed
  | promptCode
  | errWrongCode
  | promptIdPhoto
  | errNoAttachments
  | errNotVerifying
  | errAlreadyVerified
deriving DecidableEq

/-- Modelled from the spec: the notifications an operation can send to the
admin channel or to the invoking administrator. -/
inductive AdminMsg where
  | msgReGranted
  | errNeverVerified
  | errNotAwaitingApproval
deriving DecidableEq

/-- Modelled from the spec: which member facing messages mention the resend
command; the code prompt and the wrong code error both do. -/
def mentionsResendCommand : MemberMsg → Bool
  | MemberMsg.promptCode => true
  | MemberMsg.errWrongCode => true
  | _ => false

/-- Modelled from the spec: the outcome the EmailDispatcher collaborator
signals back to the engine, success or a delivery fault (spec section 6). -/
inductive DispatchResult where
  | ok
  | fault
deriving DecidableEq

/-- Modelled from the spec: the observable effects of one engine operation:
store updates in call order, full store writes, member and admin
notifications, dispatcher calls as recipient and code pairs, invocations of
the shared rate limited email step with the email argument, forwarded
attachment batches, and rank grants. -/
structure Effects where
  updates : List MemberUpdate := []
  sets : List MemberData := []
  memberMsgs : List MemberMsg := []
  adminMsgs : List AdminMsg := []
  emailsSent : List (String × String) := []
  sendStepCalls : List String := []
  forwardCalls : Nat := 0
  rankGrants : Nat := 0
deriving DecidableEq

/-- Modelled from the spec: an operation that only reports an error to the
member and changes nothing. -/
def pureError (m : MemberMsg) : Effects := { memberMsgs := [m] }

/-- Modelled from the spec: the record left in the store after an operation,
obtained by folding its partial updates over the looked up record. -/
def applyEffects (record : MemberData) (e : Effects) : MemberData :=
  e.updates.foldl applyUpdate record

/-- Modelled from the spec: the rate limited email step proc_send_email (spec
section 4.2).  maxAttempts is the injected MAX_ATTEMPTS / MAX_VER_EMAILS
configuration, code the output of the code oracle for this member and email,
dispatch the outcome of the EmailDispatcher.  At the cap: error, no dispatch,
no change.  On a delivery fault: dispatch was attempted, error, no change.  On
success: one attempt consumed, code prompt, transition to AWAIT_CODE. -/
def proc_send_email (maxAttempts : Nat) (record : MemberData) (email : String)
    (code : String) (dispatch : DispatchResult) : Effects :=
  if maxAttempts ≤ record.email_attempts then
    pureError MemberMsg.errTooManyEmails
  else
    match dispatch with
    | DispatchResult.fault =>
        { emailsSent := [(email, code)]
          memberMsgs := [MemberMsg.errEmailFailed] }
    | DispatchResult.ok =>
        { emailsSent := [(email, code)]
          updates := [{ email_attempts := some (record.email_attempts + 1) },
                      { ver_state := some (some State.AWAIT_CODE) }]
          memberMsgs := [MemberMsg.promptCode] }

/-- Modelled from the spec: proc_begin (spec section 4.3, first row).  lookup
is the result of the store get, none when the store raised MemberNotFound.  A
fresh or restartable member gets a default record, the name prompt and the
AWAIT_NAME transition; a member with id_ver true is regranted the rank with
member and admin notifications and no store mutation; a member mid workflow is
sent the already undergoing verification error with no store mutation. -/
def proc_begin (lookup : Option MemberData) (now : Nat) : Effects :=
  match lookup with
  | none =>
      { sets := [make_def_member_data now]
        memberMsgs := [MemberMsg.promptName]
        updates := [{ ver_state := some (some State.AWAIT_NAME) }] }
  | some record =>
      if record.id_ver then
        { rankGrants := 1
          memberMsgs := [MemberMsg.msgWelcomeBack]
          adminMsgs := [AdminMsg.msgReGranted] }
      else if record.ver_state = none then
        { sets := [make_def_member_data now]
          memberMsgs := [MemberMsg.promptName]
          updates := [{ ver_state := some (some State.AWAIT_NAME) }] }
      else
        pureError MemberMsg.errAlreadyVerifying

/-- Modelled from the spec: proc_restart (spec section 4.3).  Permitted only
while ver_state is non null and id_ver is false: first update clears
ver_state and refreshes ver_time to the wall clock now, second update enters
AWAIT_NAME, with the name prompt in between.  Otherwise the matching error is
sent and nothing changes. -/
def proc_restart (lookup : Option MemberData) (now : Nat) : Effects :=
  match lookup with
  | none => pureError MemberMsg.errNotVerifying
  | some record =>
      if record.id_ver then
        pureError MemberMsg.errAlreadyVerified
      else if record.ver_state = none then
        pureError MemberMsg.errNotVerifying
      else
        { updates := [{ ver_state := some none, ver_time := some now },
                      { ver_state := some (some State.AWAIT_NAME) }]
          memberMsgs := [MemberMsg.promptName] }

/-- Modelled from the spec: the AWAIT_NAME handler state_await_name (spec
section 4.3): a name of at most 500 characters is stored and the UNSW
question asked; a longer name draws the length error and no mutation. -/
def state_await_name (full_name : String) : Effects :=
  if full_name.length > 500 then
    pureError MemberMsg.errNameTooLong
  else
    { updates := [{ name := some (some full_name) },
                  { ver_state := some (some State.AWAIT_UNSW) }]
      memberMsgs := [MemberMsg.promptUnsw] }

/-- Modelled from the spec: ASCII lower casing of one character, the effect
of the Python lower method on the y or n answers the engine compares. -/
def lowerChar (c : Char) : Char :=
  if 'A' ≤ c && c ≤ 'Z' then Char.ofNat (c.toNat + 32) else c

/-- Modelled from the spec: the lower cased character list of an answer. -/
def lowerList (s : String) : List Char := s.data.map lowerChar

/-- Modelled from the spec: the AWAIT_UNSW handler state_await_unsw (spec
section 4.3): case insensitive y or yes moves to the zID question, n or no to
the email question, anything else draws the y or n error and no mutation. -/
def state_await_unsw (ans : String) : Effects :=
  if lowerList ans = "y".data ∨ lowerList ans = "yes".data then
    { memberMsgs := [MemberMsg.promptZid]
      updates := [{ ver_state := some (some State.AWAIT_ZID) }] }
  else if lowerList ans = "n".data ∨ lowerList ans = "no".data then
    { memberMsgs := [MemberMsg.promptEmail]
      updates := [{ ver_state := some (some State.AWAIT_EMAIL) }] }
  else
    pureError MemberMsg.errTypeYN

/-- Modelled from the spec: the zID pattern of spec sections 3 and 4.3, the
letter z followed by exactly seven decimal digits. -/
def is_valid_zid (s : String) : Bool :=
  match s.data with
  | 'z' :: ds => ds.length = 7 && ds.all Char.isDigit
  | _ => false

/-- Modelled from the spec: the derived student email of spec section 4.3. -/
def derived_email (zid : String) : String := zid ++ "@student.unsw.edu.au"

/-- Modelled from the spec: the AWAIT_ZID handler state_await_zid (spec
section 4.3): a valid zID is stored together with the derived student email
in one update and the rate limited email step is entered with that email; an
invalid zID draws the format error and no mutation. -/
def state_await_zid (zid : String) : Effects :=
  if is_valid_zid zid then
    { updates := [{ zid := some (some zid)
                    email := some (some (derived_email zid)) }]
      sendStepCalls := [derived_email zid] }
  else
    pureError MemberMsg.errZidFormat

/-- Faithful to src/iam/mail.py: membership in the local part class of
EMAIL_REGEX, the characters a-z A-Z 0-9 underscore dot plus minus. -/
def isLocalChar (c : Char) : Bool :=
  c.isAlphanum || c == '_' || c == '.' || c == '+' || c == '-'

/-- Faithful to src/iam/mail.py: membership in the first domain label class
of EMAIL_REGEX, the characters a-z A-Z 0-9 minus. -/
def isDomChar (c : Char) : Bool :=
  c.isAlphanum || c == '-'

/-- Faithful to src/iam/mail.py: membership in the domain tail class of
EMAIL_REGEX, the characters a-z A-Z 0-9 minus dot. -/
def isDomTailChar (c : Char) : Bool :=
  c.isAlphanum || c == '-' || c == '.'

/-- Faithful to src/iam/mail.py: the inner pattern of EMAIL_REGEX applied to
the part after the at sign: a nonempty dot free first label, a literal dot,
then a nonempty tail.  The scan for the dot is deterministic because the
first label class excludes the dot. -/
def matchDomain (dom : List Char) : Bool :=
  ((dom.dropWhile (fun c => c != '.')).head? == some '.') &&
  (!(dom.takeWhile (fun c => c != '.')).isEmpty) &&
  (dom.takeWhile (fun c => c != '.')).all isDomChar &&
  (!(dom.dropWhile (fun c => c != '.')).tail.isEmpty) &&
  (dom.dropWhile (fun c => c != '.')).tail.all isDomTailChar

/-- Faithful to src/iam/mail.py: the whole pattern of EMAIL_REGEX applied at
the start of the character list: a nonempty local part, the literal at sign,
then the domain.  The scan for the at sign is deterministic because neither
character class contains it. -/
def matchEmailCore (cs : List Char) : Bool :=
  ((cs.dropWhile (fun c => c != '@')).head? == some '@') &&
  (!(cs.takeWhile (fun c => c != '@')).isEmpty) &&
  (cs.takeWhile (fun c => c != '@')).all isLocalChar &&
  matchDomain (cs.dropWhile (fun c => c != '@')).tail

/-- Faithful to the Python semantics of the dollar anchor in src/iam/mail.py:
without the MULTILINE flag the dollar matches at the end of the string or
just before one trailing newline, so one trailing newline is discarded before
the anchored pattern must consume everything. -/
def stripTrailingNewline (cs : List Char) : List Char :=
  if cs.getLast? = some '\n' then cs.dropLast else cs

/-- Faithful to src/iam/mail.py: is_valid_email runs re.search with
EMAIL_REGEX, whose caret pin means a match can only start at position zero
and whose dollar allows the match to stop just before one trailing
newline. -/
def is_valid_email (email : String) : Bool :=
  matchEmailCore (stripTrailingNewline email.data)

/-- Modelled from the spec: the AWAIT_EMAIL handler state_await_email (spec
section 4.3): a valid email is stored and the rate limited email step is
entered with it; an invalid email draws the format error and no mutation. -/
def state_await_email (email : String) : Effects :=
  if is_valid_email email then
    { updates := [{ email := some (some email) }]
      sendStepCalls := [email] }
  else
    pureError MemberMsg.errEmailFormat

/-- Modelled from the spec: the AWAIT_CODE handler state_await_code (spec
section 4.3).  expected is the code the oracle derives for the stored email,
received the submission, now the wall clock.  A wrong code draws the error
and no mutation.  A correct code always records email_ver true while
refreshing ver_time; an affiliated member (zid present) then has id_ver set
and the rank granted, an unaffiliated member is prompted for an identity
photo and moved to AWAIT_ID. -/
def state_await_code (record : MemberData) (now : Nat)
    (expected received : String) : Effects :=
  if received ≠ expected then
    pureError MemberMsg.errWrongCode
  else
    match record.zid with
    | some _ =>
        { updates := [{ email_ver := some true, ver_time := some now },
                      { id_ver := some true }]
          rankGrants := 1 }
    | none =>
        { updates := [{ email_ver := some true, ver_time := some now },
                      { ver_state := some (some State.AWAIT_ID) }]
          memberMsgs := [MemberMsg.promptIdPhoto] }

/-- Modelled from the spec: the AWAIT_ID handler state_await_id (spec section
4.3): with at least one attachment the batch is forwarded to the admins, with
none the attachment error is sent and nothing changes.  Attachments are
rendered by opaque numbers. -/
def state_await_id (attachments : List Nat) : Effects :=
  if attachments.isEmpty then
    pureError MemberMsg.errNoAttachments
  else
    { forwardCalls := 1 }

/-- Modelled from the spec: proc_resend_email (spec sections 4.2 and 4.3): a
member awaiting a code re-enters the rate limited email step with the stored
email; any other member is ignored. -/
def proc_resend_email (record : MemberData) : Effects :=
  match record.ver_state, record.email with
  | some State.AWAIT_CODE, some email => { sendStepCalls := [email] }
  | _, _ => { }

/-- Modelled from the spec: the administrator approve operation
proc_exec_approve (spec section 4.4): it requires AWAIT_APPROVAL, sets id_ver
true and clears ver_state in the same update, then grants the rank; a missing
record or any other state draws the matching error and no mutation. -/
def proc_exec_approve (lookup : Option MemberData) : Effects :=
  match lookup with
  | none => { adminMsgs := [AdminMsg.errNeverVerified] }
  | some record =>
      if record.ver_state = some State.AWAIT_APPROVAL then
        { updates := [{ id_ver := some true, ver_state := some none }]
          rankGrants := 1 }
      else
        { adminMsgs := [AdminMsg.errNotAwaitingApproval] }

/-- Faithful to src/iam/mail.py: the exception MailError raised when an email
fails to send, carrying the recipient. -/
structure MailError where
  recipient : String
deriving DecidableEq

/-- Faithful to src/iam/mail.py: the outcome of the underlying SES client
call inside Mail.send_email, either a response with a message id or the
botocore ClientError. -/
inductive SesResult where
  | ok (messageId : String)
  | clientError
deriving DecidableEq

/-- Faithful to src/iam/mail.py: Mail.send_email forwards recipient, subject
and body to the SES client and turns exactly a ClientError of the client into
a MailError carrying the recipient; any response is success. -/
def send_email (recipient : String) (subject : String) (body_text : String)
    (ses : SesResult) : Except MailError Unit :=
  match ses with
  | SesResult.ok _ => Except.ok ()
  | SesResult.clientError => Except.error { recipient := recipient }

/-- Written from the words of the claim about is_valid_email, for comparison
with the source translation: the whole character list is one at sign
separating a nonempty local part from a domain with a first dot free label,
a dot, and a nonempty tail, all made of the allowed characters. -/
def EmailShape (cs : List Char) : Prop :=
  ∃ l d1 d2 : List Char,
    cs = l ++ '@' :: (d1 ++ '.' :: d2) ∧
    l ≠ [] ∧ l.all isLocalChar = true ∧
    d1 ≠ [] ∧ d1.all isDomChar = true ∧
    d2 ≠ [] ∧ d2.all isDomTailChar = true

/-- Scanning helper: a predicate respecting prefix followed by a failing
element splits cleanly under takeWhile and dropWhile. -/
theorem takeWhile_append_stop {p : Char → Bool} {l : List Char}
    (hl : ∀ c ∈ l, p c = true) {a : Char} (ha : p a = false) (t : List Char) :
    (l ++ a :: t).takeWhile p = l ∧ (l ++ a :: t).dropWhile p = a :: t := by
  induction l with
  | nil => simp [List.takeWhile_cons, List.dropWhile_cons, ha]
  | cons x xs ih =>
      have hx : p x = true := hl x (List.mem_cons_self x xs)
      have ihr := ih fun c hc => hl c (List.mem_cons_of_mem x hc)
      simp [List.takeWhile_cons, List.dropWhile_cons, hx, ihr.1, ihr.2]

/-- A character class that excludes a given character keeps every member
distinct from it. -/
theorem all_ne_of_class {q : Char → Bool} {a : Char} (hq : q a = false)
    {l : List Char} (h : l.all q = true) : ∀ c ∈ l, (c != a) = true := by
  intro c hc
  have hcq := List.all_eq_true.mp h c hc
  have hne : c ≠ a := fun he => by rw [he, hq] at hcq; exact Bool.false_ne_true hcq
  exact bne_iff_ne.mpr hne

/-- The deterministic scan of matchEmailCore recognises exactly the email
decompositions of EmailShape. -/
theorem matchEmailCore_iff (cs : List Char) :
    matchEmailCore cs = true ↔ EmailShape cs := by
  constructor
  · intro h
    unfold matchEmailCore at h
    simp only [Bool.and_eq_true, beq_iff_eq, Bool.not_eq_true'] at h
    obtain ⟨⟨⟨h1, h2⟩, h3⟩, h4⟩ := h
    obtain ⟨dom, hdom⟩ := List.head?_eq_some_iff.mp h1
    unfold matchDomain at h4
    simp only [hdom, List.tail_cons, Bool.and_eq_true, beq_iff_eq,
      Bool.not_eq_true'] at h4
    obtain ⟨⟨⟨⟨g1, g2⟩, g3⟩, g4⟩, g5⟩ := h4
    obtain ⟨d2, hd2⟩ := List.head?_eq_some_iff.mp g1
    refine ⟨cs.takeWhile (fun c => c != '@'),
      dom.takeWhile (fun c => c != '.'), d2, ?_, ?_, h3, ?_, g3, ?_, ?_⟩
    · conv_lhs => rw [← List.takeWhile_append_dropWhile (fun c => c != '@') cs]
      rw [hdom]
      congr 1
      conv_lhs => rw [← List.takeWhile_append_dropWhile (fun c => c != '.') dom]
      rw [hd2]
    · exact List.isEmpty_eq_false.mp h2
    · exact List.isEmpty_eq_false.mp g2
    · have := List.isEmpty_eq_false.mp (by rw [hd2] at g4; simpa using g4)
      exact this
    · rw [hd2] at g5; simpa using g5
  · rintro ⟨l, d1, d2, rfl, hl0, hlc, hd10, hd1c, hd20, hd2c⟩
    have hsplit := takeWhile_append_stop
      (all_ne_of_class (by decide : isLocalChar '@' = false) hlc)
      (by decide : ((('@' : Char)) != '@') = false) (d1 ++ '.' :: d2)
    have hdotsplit := takeWhile_append_stop
      (all_ne_of_class (by decide : isDomChar '.' = false) hd1c)
      (by decide : ((('.' : Char)) != '.') = false) d2
    unfold matchEmailCore matchDomain
    rw [hsplit.1, hsplit.2]
    simp only [List.tail_cons, List.head?_cons]
    rw [hdotsplit.1, hdotsplit.2]
    simp [List.isEmpty_eq_false, hl0, hlc, hd10, hd1c, hd20, hd2c]

/-- Claim C10, counterexample: is_valid_email accepts the string g@g.gg
followed by one newline, because the dollar anchor of a Python search matches
just before a trailing newline, yet the whole string does not match
EMAIL_REGEX since no character class admits a newline. -/
theorem c10_counterexample :
    is_valid_email "g@g.gg\n" = true ∧ ¬ EmailShape (String.data "g@g.gg\n") := by
  refine ⟨by decide, fun h => ?_⟩
  exact absurd ((matchEmailCore_iff (String.data "g@g.gg\n")).mpr h) (by decide)

/-- Claim C10 (amended): is_valid_email returns true exactly when the string,
after discarding at most one trailing newline, wholly matches EMAIL_REGEX,
one at sign separating a nonempty local part from a domain containing a dot
with allowed characters on both sides; in particular a at a, hi at, at
gmail.com and the empty string are rejected and g at g.gg is accepted. -/
theorem c10_email_validation :
    (∀ s : String,
        is_valid_email s = true ↔ EmailShape (stripTrailingNewline s.data)) ∧
    is_valid_email "g@g.gg" = true ∧
    is_valid_email "a@a" = false ∧
    is_valid_email "hi@" = false ∧
    is_valid_email "@gmail.com" = false ∧
    is_valid_email "" = false :=
  ⟨fun s => matchEmailCore_iff (stripTrailingNewline s.data),
    by decide, by decide, by decide, by decide, by decide⟩

/-- Claim C1, counterexample: the code check success of an affiliated member
sets id_ver true in an update that does not touch ver_state, and the record
left after the completed operation has id_ver true together with ver_state
AWAIT_CODE, so not every transition that sets id_ver clears ver_state. -/
theorem c1_counterexample :
    (∃ u ∈ (state_await_code
        { zid := some "z1234567", ver_state := some State.AWAIT_CODE }
        5 "cf137a" "cf137a").updates,
      u.id_ver = some true ∧ u.ver_state ≠ some none) ∧
    (applyEffects { zid := some "z1234567", ver_state := some State.AWAIT_CODE }
      (state_await_code
        { zid := some "z1234567", ver_state := some State.AWAIT_CODE }
        5 "cf137a" "cf137a")).id_ver = true ∧
    (applyEffects { zid := some "z1234567", ver_state := some State.AWAIT_CODE }
      (state_await_code
        { zid := some "z1234567", ver_state := some State.AWAIT_CODE }
        5 "cf137a" "cf137a")).ver_state = some State.AWAIT_CODE := by
  decide

/-- Claim C1 (amended): the administrator approve operation clears ver_state
to null in the same update in which it sets id_ver true, so a record observed
after a completed approve has id_ver true only with ver_state null; the code
check success path of an affiliated member, by contrast, sets id_ver without
clearing ver_state. -/
theorem c1_approve_clears_ver_state :
    (∀ lookup : Option MemberData, ∀ u ∈ (proc_exec_approve lookup).updates,
        u.id_ver = some true → u.ver_state = some none) ∧
    (∀ record : MemberData, record.ver_state = some State.AWAIT_APPROVAL →
        (applyEffects record (proc_exec_approve (some record))).id_ver = true ∧
        (applyEffects record (proc_exec_approve (some record))).ver_state
          = none) := by
  constructor
  · intro lookup u hu _hid
    match lookup with
    | none => simp [proc_exec_approve] at hu
    | some record =>
        by_cases h : record.ver_state = some State.AWAIT_APPROVAL
        · simp only [proc_exec_approve, if_pos h, List.mem_singleton] at hu
          subst hu
          rfl
        · simp [proc_exec_approve, if_neg h] at hu
  · intro record h
    simp [proc_exec_approve, if_pos h, applyEffects, applyUpdate]

/-- Claim C1 witness: the amended theorem applied to a concrete member
awaiting approval. -/
theorem c1_approve_witness :
    ({ id_ver := some true, ver_state := some none } : MemberUpdate).ver_state
      = some none ∧
    (applyEffects { ver_state := some State.AWAIT_APPROVAL }
      (proc_exec_approve
        (some { ver_state := some State.AWAIT_APPROVAL }))).id_ver = true ∧
    (applyEffects { ver_state := some State.AWAIT_APPROVAL }
      (proc_exec_approve
        (some { ver_state := some State.AWAIT_APPROVAL }))).ver_state = none :=
  ⟨c1_approve_clears_ver_state.1 (some { ver_state := some State.AWAIT_APPROVAL })
      { id_ver := some true, ver_state := some none } (by decide) rfl,
    (c1_approve_clears_ver_state.2 { ver_state := some State.AWAIT_APPROVAL } rfl).1,
    (c1_approve_clears_ver_state.2 { ver_state := some State.AWAIT_APPROVAL } rfl).2⟩

/-- Claim C2: a record at or beyond the attempt cap makes the rate limited
email step send exactly the exhaustion error, never call the dispatcher, and
leave the record completely unchanged, whatever the dispatcher would have
answered. -/
theorem c2_exhausted_step (maxAttempts : Nat) (record : MemberData)
    (email code : String) (dispatch : DispatchResult)
    (h : maxAttempts ≤ record.email_attempts) :
    proc_send_email maxAttempts record email code dispatch
      = pureError MemberMsg.errTooManyEmails ∧
    (proc_send_email maxAttempts record email code dispatch).emailsSent = [] ∧
    (proc_send_email maxAttempts record email code dispatch).updates = [] ∧
    (proc_send_email maxAttempts record email code dispatch).sets = [] ∧
    applyEffects record (proc_send_email maxAttempts record email code dispatch)
      = record := by
  have he : proc_send_email maxAttempts record email code dispatch
      = pureError MemberMsg.errTooManyEmails := by
    unfold proc_send_email
    rw [if_pos h]
  refine ⟨he, ?_, ?_, ?_, ?_⟩ <;> rw [he] <;> rfl

/-- Claim C2 witness: the theorem applied to a concrete exhausted record. -/
theorem c2_exhausted_witness :
    (3 : Nat) ≤ ({ email_attempts := 3 } : MemberData).email_attempts ∧
    proc_send_email 3 { email_attempts := 3 } "g@g.gg" "cf137a"
        DispatchResult.ok
      = pureError MemberMsg.errTooManyEmails :=
  ⟨by decide,
    (c2_exhausted_step 3 { email_attempts := 3 } "g@g.gg" "cf137a"
      DispatchResult.ok (by decide)).1⟩

/-- Claim C3: below the attempt cap a delivery fault makes the rate limited
email step notify the member of the failure after the dispatch was attempted,
with email_attempts not incremented and no other field changed; and the
Mail.send_email helper of src/iam/mail.py raises MailError, carrying the
recipient, exactly when the SES client raises ClientError. -/
theorem c3_fault_frame (maxAttempts : Nat) (record : MemberData)
    (email code : String) (h : record.email_attempts < maxAttempts) :
    proc_send_email maxAttempts record email code DispatchResult.fault
      = { emailsSent := [(email, code)]
          memberMsgs := [MemberMsg.errEmailFailed] } ∧
    (proc_send_email maxAttempts record email code DispatchResult.fault).updates
      = [] ∧
    (applyEffects record (proc_send_email maxAttempts record email code
        DispatchResult.fault)).email_attempts = record.email_attempts ∧
    applyEffects record (proc_send_email maxAttempts record email code
        DispatchResult.fault) = record ∧
    (∀ recipient subject body ses,
        send_email recipient subject body ses = Except.ok ()
          ↔ ses ≠ SesResult.clientError) ∧
    (∀ recipient subject body,
        send_email recipient subject body SesResult.clientError
          = Except.error { recipient := recipient }) := by
  have he : proc_send_email maxAttempts record email code DispatchResult.fault
      = { emailsSent := [(email, code)]
          memberMsgs := [MemberMsg.errEmailFailed] } := by
    unfold proc_send_email
    rw [if_neg (Nat.not_le.mpr h)]
  refine ⟨he, by rw [he], by rw [he]; rfl, by rw [he]; rfl, ?_, ?_⟩
  · intro recipient subject body ses
    cases ses with
    | ok mid => simp [send_email]
    | clientError => simp [send_email]
  · intro recipient subject body
    rfl

/-- Claim C3 witness: the theorem applied to a concrete fresh record and a
concrete failed send. -/
theorem c3_fault_witness :
    ({} : MemberData).email_attempts < 3 ∧
    proc_send_email 3 {} "g@g.gg" "cf137a" DispatchResult.fault
      = { emailsSent := [("g@g.gg", "cf137a")]
          memberMsgs := [MemberMsg.errEmailFailed] } ∧
    send_email "g@g.gg" "PCSoc Discord Verification" "Your code is cf137a"
        SesResult.clientError
      = Except.error { recipient := "g@g.gg" } :=
  ⟨by decide, (c3_fault_frame 3 {} "g@g.gg" "cf137a" (by decide)).1,
    (c3_fault_frame 3 {} "g@g.gg" "cf137a" (by decide)).2.2.2.2.2
      "g@g.gg" "PCSoc Discord Verification" "Your code is cf137a"⟩

/-- Claim C4: a correct code in AWAIT_CODE always records email_ver true and
refreshes ver_time; with a zID present the engine additionally sets id_ver,
grants the rank and never writes an AWAIT_ID transition, and with no zID it
prompts for the identity photo and moves ver_state to AWAIT_ID instead. -/
theorem c4_code_success (record : MemberData) (now : Nat) (code : String) :
    ((∃ z, record.zid = some z) →
        state_await_code record now code code
          = { updates := [{ email_ver := some true, ver_time := some now },
                          { id_ver := some true }]
              rankGrants := 1 } ∧
        (∀ u ∈ (state_await_code record now code code).updates,
            u.ver_state = none) ∧
        (applyEffects record (state_await_code record now code code)).email_ver
          = true ∧
        (applyEffects record (state_await_code record now code code)).ver_time
          = now ∧
        (applyEffects record (state_await_code record now code code)).id_ver
          = true ∧
        (applyEffects record (state_await_code record now code code)).ver_state
          = record.ver_state) ∧
    (record.zid = none →
        state_await_code record now code code
          = { updates := [{ email_ver := some true, ver_time := some now },
                          { ver_state := some (some State.AWAIT_ID) }]
              memberMsgs := [MemberMsg.promptIdPhoto] } ∧
        (state_await_code record now code code).rankGrants = 0 ∧
        (applyEffects record (state_await_code record now code code)).email_ver
          = true ∧
        (applyEffects record (state_await_code record now code code)).ver_time
          = now ∧
        (applyEffects record (state_await_code record now code code)).ver_state
          = some State.AWAIT_ID) := by
  have hne : ¬ code ≠ code := fun hc => hc rfl
  constructor
  · rintro ⟨z, hz⟩
    have he : state_await_code record now code code
        = { updates := [{ email_ver := some true, ver_time := some now },
                        { id_ver := some true }]
            rankGrants := 1 } := by
      unfold state_await_code
      rw [if_neg hne, hz]
    refine ⟨he, ?_, ?_, ?_, ?_, ?_⟩
    · rw [he]
      intro u hu
      simp only [List.mem_cons, List.not_mem_nil, or_false] at hu
      rcases hu with rfl | rfl <;> rfl
    all_goals rw [he] <;> simp [applyEffects, applyUpdate]
  · intro hz
    have he : state_await_code record now code code
        = { updates := [{ email_ver := some true, ver_time := some now },
                        { ver_state := some (some State.AWAIT_ID) }]
            memberMsgs := [MemberMsg.promptIdPhoto] } := by
      unfold state_await_code
      rw [if_neg hne, hz]
    refine ⟨he, ?_, ?_, ?_, ?_⟩
    all_goals rw [he] <;> simp [applyEffects, applyUpdate]

/-- Claim C4 witness: the theorem applied to a concrete affiliated and a
concrete unaffiliated member. -/
theorem c4_code_success_witness :
    state_await_code { zid := some "z1234567" } 7 "cf137a" "cf137a"
      = { updates := [{ email_ver := some true, ver_time := some 7 },
                      { id_ver := some true }]
          rankGrants := 1 } ∧
    state_await_code {} 7 "cf137a" "cf137a"
      = { updates := [{ email_ver := some true, ver_time := some 7 },
                      { ver_state := some (some State.AWAIT_ID) }]
          memberMsgs := [MemberMsg.promptIdPhoto] } :=
  ⟨((c4_code_success { zid := some "z1234567" } 7 "cf137a").1
      ⟨"z1234567", rfl⟩).1,
    ((c4_code_success {} 7 "cf137a").2 rfl).1⟩

/-- Claim C5: below the attempt cap a successful dispatch makes the rate
limited email step consume exactly one attempt, prompt the member for the
code with the message that mentions the resend command, and transition
ver_state to AWAIT_CODE. -/
theorem c5_send_success (maxAttempts : Nat) (record : MemberData)
    (email code : String) (h : record.email_attempts < maxAttempts) :
    proc_send_email maxAttempts record email code DispatchResult.ok
      = { emailsSent := [(email, code)]
          updates := [{ email_attempts := some (record.email_attempts + 1) },
                      { ver_state := some (some State.AWAIT_CODE) }]
          memberMsgs := [MemberMsg.promptCode] } ∧
    mentionsResendCommand MemberMsg.promptCode = true ∧
    (applyEffects record (proc_send_email maxAttempts record email code
        DispatchResult.ok)).email_attempts = record.email_attempts + 1 ∧
    (applyEffects record (proc_send_email maxAttempts record email code
        DispatchResult.ok)).ver_state = some State.AWAIT_CODE := by
  have he : proc_send_email maxAttempts record email code DispatchResult.ok
      = { emailsSent := [(email, code)]
          updates := [{ email_attempts := some (record.email_attempts + 1) },
                      { ver_state := some (some State.AWAIT_CODE) }]
          memberMsgs := [MemberMsg.promptCode] } := by
    unfold proc_send_email
    rw [if_neg (Nat.not_le.mpr h)]
  refine ⟨he, rfl, ?_, ?_⟩
  all_goals rw [he] <;> simp [applyEffects, applyUpdate]

/-- Claim C5 witness: the theorem applied to a concrete fresh record. -/
theorem c5_send_witness :
    ({} : MemberData).email_attempts < 3 ∧
    proc_send_email 3 {} "g@g.gg" "cf137a" DispatchResult.ok
      = { emailsSent := [("g@g.gg", "cf137a")]
          updates := [{ email_attempts := some 1 },
                      { ver_state := some (some State.AWAIT_CODE) }]
          memberMsgs := [MemberMsg.promptCode] } :=
  ⟨by decide, (c5_send_success 3 {} "g@g.gg" "cf137a" (by decide)).1⟩

/-- Claim C6: a string of the zID shape submitted in AWAIT_ZID stores the zID
together with the email derived by appending the student domain, and invokes
the rate limited email step with exactly that derived email; any other string
draws the format error and no mutation. -/
theorem c6_zid (zid : String) :
    (is_valid_zid zid = true →
        state_await_zid zid
          = { updates := [{ zid := some (some zid)
                            email := some (some (derived_email zid)) }]
              sendStepCalls := [derived_email zid] } ∧
        derived_email zid = zid ++ "@student.unsw.edu.au") ∧
    (is_valid_zid zid = false →
        state_await_zid zid = pureError MemberMsg.errZidFormat) ∧
    derived_email "z1234567" = "z1234567@student.unsw.edu.au" := by
  refine ⟨fun h => ⟨?_, rfl⟩, fun h => ?_, rfl⟩
  · unfold state_await_zid
    rw [if_pos h]
  · unfold state_await_zid
    rw [if_neg (by simp [h])]

/-- Claim C6 witness: the theorem applied to a concrete valid and a concrete
invalid zID. -/
theorem c6_zid_witness :
    state_await_zid "z1234567"
      = { updates := [{ zid := some (some "z1234567")
                        email := some (some (derived_email "z1234567")) }]
          sendStepCalls := [derived_email "z1234567"] } ∧
    derived_email "z1234567" = "z1234567@student.unsw.edu.au" ∧
    state_await_zid "z12345678" = pureError MemberMsg.errZidFormat :=
  ⟨((c6_zid "z1234567").1 (by decide)).1,
    ((c6_zid "z1234567").1 (by decide)).2,
    (c6_zid "z12345678").2.1 (by decide)⟩

/-- Claim C7: for every state each invalid input draws exactly the state
specific error and nothing else, and an error leaves the record entirely
unmodified: an over long name, an unrecognised y or n answer, a malformed
zID, a malformed email, a wrong code, an empty attachment list. -/
theorem c7_invalid_inputs :
    (∀ full_name : String, 500 < full_name.length →
        state_await_name full_name = pureError MemberMsg.errNameTooLong) ∧
    (∀ ans : String, lowerList ans ≠ "y".data → lowerList ans ≠ "yes".data →
        lowerList ans ≠ "n".data → lowerList ans ≠ "no".data →
        state_await_unsw ans = pureError MemberMsg.errTypeYN) ∧
    (∀ zid : String, is_valid_zid zid = false →
        state_await_zid zid = pureError MemberMsg.errZidFormat) ∧
    (∀ email : String, is_valid_email email = false →
        state_await_email email = pureError MemberMsg.errEmailFormat) ∧
    (∀ (record : MemberData) (now : Nat) (expected received : String),
        received ≠ expected →
        state_await_code record now expected received
          = pureError MemberMsg.errWrongCode) ∧
    (state_await_id [] = pureError MemberMsg.errNoAttachments) ∧
    (∀ m : MemberMsg, (pureError m).updates = [] ∧ (pureError m).sets = [] ∧
        ∀ record : MemberData, applyEffects record (pureError m) = record) := by
  refine ⟨?_, ?_, ?_, ?_, ?_, rfl, ?_⟩
  · intro full_name hl
    unfold state_await_name
    rw [if_pos hl]
  · intro ans h1 h2 h3 h4
    unfold state_await_unsw
    rw [if_neg (by simp [h1, h2]), if_neg (by simp [h3, h4])]
  · intro zid h
    unfold state_await_zid
    rw [if_neg (by simp [h])]
  · intro email h
    unfold state_await_email
    rw [if_neg (by simp [h])]
  · intro record now expected received h
    unfold state_await_code
    rw [if_pos h]
  · intro m
    exact ⟨rfl, rfl, fun record => rfl⟩

set_option maxRecDepth 4000 in
/-- Claim C7 witness: the theorem applied to one concrete invalid input per
state. -/
theorem c7_invalid_witness :
    state_await_name (String.mk (List.replicate 501 'a'))
      = pureError MemberMsg.errNameTooLong ∧
    state_await_unsw "kek" = pureError MemberMsg.errTypeYN ∧
    state_await_zid "z0" = pureError MemberMsg.errZidFormat ∧
    state_await_email "a@a" = pureError MemberMsg.errEmailFormat ∧
    state_await_code {} 1 "cf137a" "wowee" = pureError MemberMsg.errWrongCode ∧
    state_await_id [] = pureError MemberMsg.errNoAttachments :=
  ⟨c7_invalid_inputs.1 (String.mk (List.replicate 501 'a')) (by decide),
    c7_invalid_inputs.2.1 "kek" (by decide) (by decide) (by decide) (by decide),
    c7_invalid_inputs.2.2.1 "z0" (by decide),
    c7_invalid_inputs.2.2.2.1 "a@a" (by decide),
    c7_invalid_inputs.2.2.2.2.1 {} 1 "cf137a" "wowee" (by decide),
    c7_invalid_inputs.2.2.2.2.2.1⟩

/-- Claim C8: begin on a member mid workflow with id_ver false sends exactly
the already undergoing verification error with no store mutation, for every
non null state; begin on a member with id_ver true grants the rank at once,
notifies the member and the admin channel, and mutates nothing. -/
theorem c8_begin (record : MemberData) (now : Nat) :
    (record.ver_state ≠ none → record.id_ver = false →
        proc_begin (some record) now
          = pureError MemberMsg.errAlreadyVerifying) ∧
    (record.id_ver = true →
        proc_begin (some record) now
          = { rankGrants := 1
              memberMsgs := [MemberMsg.msgWelcomeBack]
              adminMsgs := [AdminMsg.msgReGranted] }) := by
  constructor
  · intro hs hv
    simp [proc_begin, hv, hs]
  · intro hv
    simp [proc_begin, hv]

/-- Claim C8 witness: the theorem applied to one concrete mid workflow member
and one concrete previously verified member. -/
theorem c8_begin_witness :
    proc_begin (some { ver_state := some State.AWAIT_NAME }) 3
      = pureError MemberMsg.errAlreadyVerifying ∧
    proc_begin (some { id_ver := true, ver_state := some State.AWAIT_CODE }) 3
      = { rankGrants := 1
          memberMsgs := [MemberMsg.msgWelcomeBack]
          adminMsgs := [AdminMsg.msgReGranted] } :=
  ⟨(c8_begin { ver_state := some State.AWAIT_NAME } 3).1 (by decide) rfl,
    (c8_begin { id_ver := true, ver_state := some State.AWAIT_CODE } 3).2 rfl⟩

/-- Claim C9: restart on a member mid workflow with id_ver false performs
exactly two updates, the first clearing ver_state while refreshing ver_time
to the wall clock taken during the call, the second entering AWAIT_NAME; on a
member with id_ver true, on a missing record, and on a record outside the
workflow it sends the matching error with no mutation. -/
theorem c9_restart (record : MemberData) (now tstart tend : Nat) :
    (record.ver_state ≠ none → record.id_ver = false →
        proc_restart (some record) now
          = { updates := [{ ver_state := some none, ver_time := some now },
                          { ver_state := some (some State.AWAIT_NAME) }]
              memberMsgs := [MemberMsg.promptName] } ∧
        (applyEffects record (proc_restart (some record) now)).ver_state
          = some State.AWAIT_NAME ∧
        (applyEffects record (proc_restart (some record) now)).ver_time
          = now ∧
        (tstart ≤ now → now ≤ tend →
            tstart ≤ (applyEffects record
              (proc_restart (some record) now)).ver_time ∧
            (applyEffects record (proc_restart (some record) now)).ver_time
              ≤ tend)) ∧
    (record.id_ver = true →
        proc_restart (some record) now
          = pureError MemberMsg.errAlreadyVerified) ∧
    (proc_restart none now = pureError MemberMsg.errNotVerifying) ∧
    (record.ver_state = none → record.id_ver = false →
        proc_restart (some record) now
          = pureError MemberMsg.errNotVerifying) := by
  refine ⟨?_, ?_, rfl, ?_⟩
  · intro hs hv
    have he : proc_restart (some record) now
        = { updates := [{ ver_state := some none, ver_time := some now },
                        { ver_state := some (some State.AWAIT_NAME) }]
            memberMsgs := [MemberMsg.promptName] } := by
      simp [proc_restart, hv, hs]
    have ht : (applyEffects record (proc_restart (some record) now)).ver_time
        = now := by
      rw [he]
      simp [applyEffects, applyUpdate]
    refine ⟨he, ?_, ht, ?_⟩
    · rw [he]
      simp [applyEffects, applyUpdate]
    · intro h1 h2
      rw [ht]
      exact ⟨h1, h2⟩
  · intro hv
    simp [proc_restart, hv]
  · intro hs hv
    simp [proc_restart, hv, hs]

/-- Claim C9 witness: the theorem applied to one concrete member per case. -/
theorem c9_restart_witness :
    proc_restart (some { ver_state := some State.AWAIT_CODE }) 5
      = { updates := [{ ver_state := some none, ver_time := some 5 },
                      { ver_state := some (some State.AWAIT_NAME) }]
          memberMsgs := [MemberMsg.promptName] } ∧
    (4 ≤ (applyEffects { ver_state := some State.AWAIT_CODE }
        (proc_restart (some { ver_state := some State.AWAIT_CODE }) 5)).ver_time ∧
      (applyEffects { ver_state := some State.AWAIT_CODE }
        (proc_restart (some { ver_state := some State.AWAIT_CODE }) 5)).ver_time
        ≤ 6) ∧
    proc_restart (some { id_ver := true, ver_state := some State.AWAIT_CODE }) 5
      = pureError MemberMsg.errAlreadyVerified ∧
    proc_restart none 5 = pureError MemberMsg.errNotVerifying ∧
    proc_restart (some {}) 5 = pureError MemberMsg.errNotVerifying :=
  ⟨((c9_restart { ver_state := some State.AWAIT_CODE } 5 4 6).1
      (by decide) rfl).1,
    ((c9_restart { ver_state := some State.AWAIT_CODE } 5 4 6).1
      (by decide) rfl).2.2.2 (by decide) (by decide),
    (c9_restart { id_ver := true, ver_state := some State.AWAIT_CODE } 5 4 6).2.1
      rfl,
    (c9_restart {} 5 4 6).2.2.1,
    (c9_restart {} 5 4 6).2.2.2 rfl rfl⟩

end Iam
